import Mathlib

/-!
Shallow embedding of the VIAF → Wikidata reconciliation notebook
(`wikidata_pywikibot_sparql_work.ipynb`).

The notebook's pipeline, as written in the source cells, is:

1. `viaf_ids = df1['VIAF_ID'].astype(str).values.tolist()` — extract a
   column of VIAF identifiers from a pandas data frame.  A pandas cell
   holding the missing-value marker `NaN` is rendered by `astype(str)` as
   the literal string `"nan"` (visible in the notebook's own printed
   output of `viaf_ids`).
2. For each extracted string `f`, build a SPARQL SELECT query embedding
   `f` as a quoted literal matched against property `wdt:P214`, send it to
   the Wikidata endpoint, and parse the JSON result into a list of
   bindings.
3. Append one dictionary row per binding to the growing list
   `importantPeople`; the final, file-driven loop wraps the row
   construction in `try: ... except KeyError: pass`, so a binding that
   lacks any of the three requested fields (`person`, `personLabel`,
   `wparticle`) contributes no row at all.

Each Python construct is translated into a total Lean function; the remote
endpoint is modelled as a store of entities together with an evaluator for
the notebook's SELECT queries.
-/

/-- A cell of the tabular input file, as pandas sees it: either a present
string value or the missing-value marker `NaN`. -/
inductive Cell where
  | val (s : String)
  | nan
deriving DecidableEq, Repr

/-- pandas `.astype(str)` applied to one cell: a present value keeps its
string form, and the missing-value marker `NaN` is rendered as the literal
string `"nan"` (this is exactly what the notebook's printed `viaf_ids`
shows). -/
def Cell.astypeStr : Cell → String
  | .val s => s
  | .nan => "nan"

/-- A data frame: named columns of cells (the shape `pd.read_csv`
produces, restricted to what the notebook reads). -/
structure Table where
  columns : List (String × List Cell)
deriving Repr

/-- Column lookup, `df1[col]`: the first column with the given name, or
`none` when the name is absent (pandas raises `KeyError` there). -/
def Table.getColumn (t : Table) (col : String) : Option (List Cell) :=
  (t.columns.find? (fun c => c.fst == col)).map Prod.snd

/-- The fatal error raised when the requested identifier column does not
exist in the input table (pandas `KeyError` on `df1['VIAF_ID']`). -/
inductive SchemaError where
  | missingColumn (col : String)
deriving DecidableEq, Repr

/-- `df1[col].astype(str).values.tolist()`: the sequence of identifier
strings extracted from the named column; fails when the column is absent,
and otherwise coerces every cell (missing-value cells included) to its
string representation. -/
def extract (t : Table) (col : String) : Except SchemaError (List String) :=
  match t.getColumn col with
  | none => .error (.missingColumn col)
  | some cells => .ok (cells.map Cell.astypeStr)

/-- The two-variable query string built in the notebook's first loops:
`'SELECT ?person ?personLabel WHERE { ?person wdt:P214 "' + f + '" SERVICE wikibase:label { bd:serviceParam wikibase:language "en" }}'`. -/
def queryString (f : String) : String :=
  "SELECT ?person ?personLabel WHERE \x7b ?person wdt:P214 \"" ++ f ++
    "\" SERVICE wikibase:label \x7b bd:serviceParam wikibase:language \"en\" \x7d\x7d"

/-- The three-variable query string built in the notebook's later loops,
requesting the Wikipedia article through an OPTIONAL pattern. -/
def queryString3 (f : String) : String :=
  "SELECT ?person ?personLabel ?wparticle WHERE     \x7b ?person wdt:P214 \"" ++ f ++
    "\" SERVICE wikibase:label \x7b bd:serviceParam wikibase:language \"en\" \x7d    " ++
    "OPTIONAL \x7b ?wparticle schema:about ?person . ?wparticle schema:inLanguage \"en\" . " ++
    "FILTER (SUBSTR(str(?wparticle), 1, 25) = \"https://en.wikipedia.org/\") \x7d\x7d"

/-- The query strings the file-driven loop sends to the endpoint: one
three-variable query per extracted identifier, in sequence order. -/
def issuedQueryStrings (ids : List String) : List String :=
  ids.map queryString3

/-- One row of the SPARQL JSON result set for the two-variable query.
Neither variable sits under an OPTIONAL pattern and the label service
always binds `personLabel`, so both fields are present strings. -/
structure Binding2 where
  person : String
  personLabel : String
deriving DecidableEq, Repr

/-- One row of the SPARQL JSON result set for the three-variable query: a
JSON dictionary in which any requested variable may be absent (an unbound
OPTIONAL variable is simply omitted from the dictionary, which is what
makes `result["wparticle"]` raise `KeyError`). -/
structure Binding where
  person : Option String
  personLabel : Option String
  wparticle : Option String
deriving DecidableEq, Repr

/-- A row of the two-column result table: the dictionary
`{'Wikidata_URI': result["person"]["value"], 'name': result["personLabel"]["value"]}`. -/
structure Row2 where
  wikidataURI : String
  name : String
deriving DecidableEq, Repr

/-- A row of the three-column result table: the dictionary with keys
`Wikidata_URI`, `name`, `wikipedia_URL` appended by the file-driven loop. -/
structure Row3 where
  wikidataURI : String
  name : String
  wikipediaURL : String
deriving DecidableEq, Repr

/-- An entity of the remote store: its URI, its VIAF identifiers
(property P214 claims, possibly several), its English label, and the
English Wikipedia article about it when one exists. -/
structure Entity where
  uri : String
  viafIds : List String
  label : String
  wikipediaURL : Option String
deriving DecidableEq, Repr

/-- Evaluation of the two-variable SELECT query against the remote store:
one binding per entity holding the queried VIAF identifier as a P214
claim, carrying the entity URI and its label (the label service always
binds `personLabel`). -/
def evalSelect2 (store : List Entity) (f : String) : List Binding2 :=
  (store.filter (fun e => e.viafIds.contains f)).map
    (fun e => { person := e.uri, personLabel := e.label })

/-- Evaluation of the three-variable SELECT query against the remote
store: as `evalSelect2`, but additionally binding `wparticle` to the
English Wikipedia article when the entity has one — an unbound OPTIONAL
variable is simply missing from the binding. -/
def evalSelect3 (store : List Entity) (f : String) : List Binding :=
  (store.filter (fun e => e.viafIds.contains f)).map
    (fun e => { person := some e.uri, personLabel := some e.label,
                wparticle := e.wikipediaURL })

/-- Executing one of the notebook's queries against the remote endpoint,
with the store threaded explicitly: the notebook only ever issues SELECT
queries, which read the store and return bindings without modifying it
(the SPARQL update operations that would mutate the store use a different
protocol verb the notebook never sends). -/
def runSelect (store : List Entity) (f : String) : List Entity × List Binding2 :=
  (store, evalSelect2 store f)

/-- Executing a sequence of the notebook's queries, threading the store
state from each query execution into the next. -/
def runSelects (store : List Entity) : List String → List Entity × List (List Binding2)
  | [] => (store, [])
  | f :: rest =>
    let p := runSelect store f
    let q := runSelects p.fst rest
    (q.fst, p.snd :: q.snd)

/-- The body of the two-column accumulation loop
(`for result in result1["results"]["bindings"]: importantPeople.append({...})`):
append one row per binding to the accumulator. -/
def appendRows2 (acc : List Row2) (bs : List Binding2) : List Row2 :=
  bs.foldl (fun a r => a ++ [{ wikidataURI := r.person, name := r.personLabel }]) acc

/-- The two-column loop of the notebook (`importantPeople = []` followed
by `for f in viaf_id: ... importantPeople.append({...})`), with the remote
call abstracted as `lookup`. -/
def importantPeopleLoop2 (lookup : String → List Binding2) (ids : List String) : List Row2 :=
  ids.foldl (fun acc f => appendRows2 acc (lookup f)) []

/-- The `try/except` body of the file-driven loop: the row dictionary
looks up `person`, `personLabel` and `wparticle` in the binding; a
`KeyError` on any of the three aborts the append (`except KeyError: pass`),
so a row is appended exactly when all three fields are present. -/
def tryAppendRow (acc : List Row3) (b : Binding) : List Row3 :=
  match b.person, b.personLabel, b.wparticle with
  | some u, some n, some w =>
      acc ++ [{ wikidataURI := u, name := n, wikipediaURL := w }]
  | _, _, _ => acc

/-- The inner binding loop of the file-driven pipeline:
`for result in result1["results"]["bindings"]: try ... except KeyError: pass`. -/
def processBindings (acc : List Row3) (bs : List Binding) : List Row3 :=
  bs.foldl tryAppendRow acc

/-- The rows one identifier contributes to the three-column table. -/
def rowsFor3 (lookup : String → List Binding) (f : String) : List Row3 :=
  processBindings [] (lookup f)

/-- The file-driven accumulation loop (`importantPeople = []` followed by
`for f in viaf_ids: ...`), with the remote call abstracted as `lookup`. -/
def importantPeopleLoop3 (lookup : String → List Binding) (ids : List String) : List Row3 :=
  ids.foldl (fun acc f => processBindings acc (lookup f)) []

/-- A per-identifier failure of the remote call: a network/HTTP failure
(`TransportError`) or a malformed response payload (`ProtocolError`),
each carrying the identifier being looked up. -/
inductive QueryError where
  | transport (f : String)
  | protocol (f : String)
deriving DecidableEq, Repr

/-- The file-driven loop with a fallible remote call.  In the source,
`sparql.query().convert()` sits outside the `try: ... except KeyError:`
block, so any exception it raises propagates out of the `for` loop and
terminates the run; the embedding mirrors that by aborting the fold at the
first lookup error. -/
def importantPeopleLoopEAux (lookup : String → Except QueryError (List Binding))
    (acc : List Row3) : List String → Except QueryError (List Row3)
  | [] => .ok acc
  | f :: rest =>
    match lookup f with
    | .error e => .error e
    | .ok bs => importantPeopleLoopEAux lookup (processBindings acc bs) rest

/-- The file-driven loop with a fallible remote call, started on the empty
accumulator. -/
def importantPeopleLoopE (lookup : String → Except QueryError (List Binding))
    (ids : List String) : Except QueryError (List Row3) :=
  importantPeopleLoopEAux lookup [] ids

/-- The whole file-driven pipeline: extract the identifier column, then
run the accumulation loop over the extracted sequence.  When extraction
fails no loop iteration runs, so no remote call is made. -/
def filePipeline (t : Table) (col : String)
    (lookup : String → List Binding) : Except SchemaError (List Row3) :=
  match extract t col with
  | .error e => .error e
  | .ok ids => .ok (importantPeopleLoop3 lookup ids)

/-- The row built from one two-variable binding:
`{'Wikidata_URI': result["person"]["value"], 'name': result["personLabel"]["value"]}`. -/
def toRow2 (r : Binding2) : Row2 :=
  { wikidataURI := r.person, name := r.personLabel }

/-- The static identifier list of the notebook's early cells:
`viaf_id = ["52010985", "34562701", "108815043", "76323201", "2487523", "55588240"]`. -/
def viaf_id : List String :=
  ["52010985", "34562701", "108815043", "76323201", "2487523", "55588240"]

/-- The part of the remote dataset the notebook's outputs exhibit: the
four entities its sample queries match, with the labels and Wikipedia
articles shown in the printed results.  The identifiers `108815043` and
`2487523` match no entity (the notebook prints `No match` for them). -/
def sampleStore : List Entity :=
  [{ uri := "http://www.wikidata.org/entity/Q76", viafIds := ["52010985"],
     label := "Barack Obama",
     wikipediaURL := some "https://en.wikipedia.org/wiki/Barack_Obama" },
   { uri := "http://www.wikidata.org/entity/Q1609351", viafIds := ["34562701"],
     label := "Herbert York",
     wikipediaURL := some "https://en.wikipedia.org/wiki/Herbert_York" },
   { uri := "http://www.wikidata.org/entity/Q4829518", viafIds := ["76323201"],
     label := "Avrum Stroll",
     wikipediaURL := some "https://en.wikipedia.org/wiki/Avrum_Stroll" },
   { uri := "http://www.wikidata.org/entity/Q942808", viafIds := ["55588240"],
     label := "Roger Revelle",
     wikipediaURL := some "https://en.wikipedia.org/wiki/Roger_Revelle" }]

/-- The `VIAF_ID` column of the first nine rows of the input file
`name_viaf-refine_test.csv`, as the notebook displays them: several cells
hold the missing-value marker `NaN`. -/
def sampleViafCells : List Cell :=
  [.nan, .val "34562701", .val "108815043", .val "2487523", .nan,
   .val "135197943", .nan, .nan, .val "92278621"]

/-- The first nine rows of the input file `name_viaf-refine_test.csv`, as
the notebook displays them. -/
def sampleTable : Table :=
  { columns :=
      [("AuthoritativeLabel",
        [.val "UC Regents", .val "Herbert F. York", .val "Andrew H. Wright",
         .val "Stanley Chodorow", .val "Melvin J. Voight",
         .val "World Series (Baseball)", .val "Hans Seuss",
         .val "Karen Fleckenstein", .val "Leonard Newmark"]),
       ("VIAF_ID", sampleViafCells)] }

/-- The identifier sequence the notebook's extraction step produces from
`sampleTable` (the start of the notebook's own printed `viaf_ids` list):
every missing-value cell appears as the literal string `"nan"`. -/
def sampleViafIds : List String :=
  ["nan", "34562701", "108815043", "2487523", "nan",
   "135197943", "nan", "nan", "92278621"]

/-- A remote-call function exhibiting a network outage on one identifier:
looking up `"nan"` fails with a `TransportError`, every other identifier
is answered from `sampleStore`. -/
def lookupWithOutage : String → Except QueryError (List Binding) :=
  fun f =>
    if f == "nan" then .error (.transport "nan")
    else .ok (evalSelect3 sampleStore f)

lemma appendRows2_eq (bs : List Binding2) :
    ∀ acc : List Row2, appendRows2 acc bs = acc ++ bs.map toRow2 := by
  induction bs with
  | nil => intro acc; simp [appendRows2]
  | cons b bs ih =>
    intro acc
    simp only [appendRows2, List.foldl_cons] at *
    rw [ih]
    simp [toRow2]

lemma importantPeopleLoop2_foldl (lookup : String → List Binding2) (ids : List String) :
    ∀ acc : List Row2,
      ids.foldl (fun acc f => appendRows2 acc (lookup f)) acc =
        acc ++ ids.flatMap (fun f => (lookup f).map toRow2) := by
  induction ids with
  | nil => intro acc; simp
  | cons f rest ih =>
    intro acc
    simp only [List.foldl_cons, List.flatMap_cons]
    rw [ih, appendRows2_eq, List.append_assoc]

lemma importantPeopleLoop2_eq (lookup : String → List Binding2) (ids : List String) :
    importantPeopleLoop2 lookup ids = ids.flatMap (fun f => (lookup f).map toRow2) := by
  rw [importantPeopleLoop2, importantPeopleLoop2_foldl]
  simp

lemma tryAppendRow_eq (acc : List Row3) (b : Binding) :
    tryAppendRow acc b = acc ++ tryAppendRow [] b := by
  rcases b with ⟨p, n, w⟩
  rcases p with _ | u <;> rcases n with _ | n <;> rcases w with _ | w <;>
    simp [tryAppendRow]

lemma processBindings_eq (bs : List Binding) :
    ∀ acc : List Row3, processBindings acc bs = acc ++ processBindings [] bs := by
  induction bs with
  | nil => intro acc; simp [processBindings]
  | cons b bs ih =>
    intro acc
    simp only [processBindings, List.foldl_cons] at *
    rw [ih, ih (tryAppendRow [] b), tryAppendRow_eq, List.append_assoc]

lemma processBindings_flatMap (bs : List Binding) :
    processBindings [] bs = bs.flatMap (fun b => tryAppendRow [] b) := by
  induction bs with
  | nil => rfl
  | cons b bs ih =>
    show processBindings (tryAppendRow [] b) bs = _
    rw [processBindings_eq, ih, List.flatMap_cons]

lemma importantPeopleLoop3_foldl (lookup : String → List Binding) (ids : List String) :
    ∀ acc : List Row3,
      ids.foldl (fun acc f => processBindings acc (lookup f)) acc =
        acc ++ ids.flatMap (rowsFor3 lookup) := by
  induction ids with
  | nil => intro acc; simp
  | cons f rest ih =>
    intro acc
    simp only [List.foldl_cons, List.flatMap_cons]
    rw [ih, processBindings_eq, rowsFor3, List.append_assoc]

lemma importantPeopleLoop3_eq (lookup : String → List Binding) (ids : List String) :
    importantPeopleLoop3 lookup ids = ids.flatMap (rowsFor3 lookup) := by
  rw [importantPeopleLoop3, importantPeopleLoop3_foldl]
  simp

lemma tryAppendRow_of_none (acc : List Row3) (b : Binding)
    (h : b.person = none ∨ b.personLabel = none ∨ b.wparticle = none) :
    tryAppendRow acc b = acc := by
  rcases b with ⟨p, n, w⟩
  rcases p with _ | p <;> rcases n with _ | n <;> rcases w with _ | w <;>
    simp_all [tryAppendRow]

lemma rowsFor3_eq_nil_of_none (lookup : String → List Binding) (f : String)
    (h : ∀ b ∈ lookup f, b.wparticle = none) : rowsFor3 lookup f = [] := by
  rw [rowsFor3, processBindings_flatMap]
  have main : ∀ bs : List Binding, (∀ b ∈ bs, b.wparticle = none) →
      bs.flatMap (fun b => tryAppendRow [] b) = [] := by
    intro bs
    induction bs with
    | nil => intro _; rfl
    | cons b bs ih =>
      intro hbs
      rw [List.flatMap_cons,
        tryAppendRow_of_none [] b (Or.inr (Or.inr (hbs b (by simp)))),
        List.nil_append]
      exact ih (fun x hx => hbs x (by simp [hx]))
  exact main (lookup f) h

lemma runSelects_spec (store : List Entity) (ids : List String) :
    runSelects store ids = (store, ids.map (evalSelect2 store)) := by
  induction ids with
  | nil => rfl
  | cons f rest ih => simp [runSelects, runSelect, ih]

lemma importantPeopleLoopEAux_error (lookup : String → Except QueryError (List Binding))
    (post : List String) (f : String) (e : QueryError) (hf : lookup f = .error e) :
    ∀ pre : List String, (∀ i ∈ pre, ∃ bs, lookup i = .ok bs) →
      ∀ acc : List Row3, importantPeopleLoopEAux lookup acc (pre ++ f :: post) = .error e := by
  intro pre
  induction pre with
  | nil =>
    intro _ acc
    show importantPeopleLoopEAux lookup acc (f :: post) = _
    simp [importantPeopleLoopEAux, hf]
  | cons i rest ih =>
    intro hpre acc
    obtain ⟨bs, hbs⟩ := hpre i (by simp)
    show importantPeopleLoopEAux lookup acc (i :: (rest ++ f :: post)) = _
    rw [importantPeopleLoopEAux, hbs]
    exact ih (fun j hj => hpre j (by simp [hj])) _

/-- C4: for an identifier absent from the remote dataset, `lookup` returns
the empty binding sequence and the accumulation loop appends zero rows for
it — the table equals the table for the input without that identifier, so
the no-match case is never stored as a row with null fields. -/
theorem no_match_adds_no_rows (store : List Entity) (f : String)
    (pre post : List String) (h : ∀ e ∈ store, e.viafIds.contains f = false) :
    evalSelect2 store f = [] ∧
      importantPeopleLoop2 (evalSelect2 store) (pre ++ f :: post) =
        importantPeopleLoop2 (evalSelect2 store) (pre ++ post) := by
  have hempty : evalSelect2 store f = [] := by
    rw [evalSelect2,
      List.filter_eq_nil_iff.mpr (by intro e he; simpa using h e he), List.map_nil]
  refine ⟨hempty, ?_⟩
  rw [importantPeopleLoop2_eq, importantPeopleLoop2_eq, List.flatMap_append,
    List.flatMap_append, List.flatMap_cons, hempty]
  simp

/-- C4 witness: in the sample store, identifier `108815043` has no match,
so dropping it from the input changes nothing. -/
theorem no_match_adds_no_rows_witness :
    evalSelect2 sampleStore "108815043" = [] ∧
      importantPeopleLoop2 (evalSelect2 sampleStore)
          (["34562701"] ++ "108815043" :: ["76323201"]) =
        importantPeopleLoop2 (evalSelect2 sampleStore) (["34562701"] ++ ["76323201"]) :=
  no_match_adds_no_rows sampleStore "108815043" ["34562701"] ["76323201"] (by decide)

/-- C5: on the spec's example input sequence, row order is stable and
equals input identifier order: the output rows are exactly Q76, Q1609351,
Q4829518 in that order, the third identifier contributing no row. -/
theorem sample_order_stable :
    importantPeopleLoop2 (evalSelect2 sampleStore)
        ["52010985", "34562701", "108815043", "76323201"] =
      [{ wikidataURI := "http://www.wikidata.org/entity/Q76", name := "Barack Obama" },
       { wikidataURI := "http://www.wikidata.org/entity/Q1609351", name := "Herbert York" },
       { wikidataURI := "http://www.wikidata.org/entity/Q4829518", name := "Avrum Stroll" }] := by
  decide

/-- C7: the result table has exactly one row per (identifier, binding)
pair: the loop equals the concatenation, in input encounter order, of the
per-identifier row blocks (so an identifier with k bindings contributes
exactly k contiguous rows, and a duplicated identifier is processed
independently at each occurrence), and the table's length is the sum of
the per-identifier binding counts. -/
theorem one_row_per_binding (lookup : String → List Binding2) (ids : List String) :
    importantPeopleLoop2 lookup ids = ids.flatMap (fun f => (lookup f).map toRow2) ∧
      (importantPeopleLoop2 lookup ids).length =
        (ids.map (fun f => (lookup f).length)).sum := by
  refine ⟨importantPeopleLoop2_eq lookup ids, ?_⟩
  rw [importantPeopleLoop2_eq, List.length_flatMap]
  simp only [Function.comp_def, List.length_map]

/-- C8: lookup is idempotent with respect to the remote store: executing
any sequence of the notebook's SELECT queries leaves the store unchanged
and each query's bindings are a function of the initial store alone, so in
particular running the same lookup twice yields identical MatchResult
sets. -/
theorem lookup_idempotent (store : List Entity) (ids : List String) (f : String) :
    (runSelects store ids).fst = store ∧
      (runSelects store ids).snd = ids.map (evalSelect2 store) ∧
      (runSelects store [f, f]).snd = [evalSelect2 store f, evalSelect2 store f] := by
  refine ⟨?_, ?_, ?_⟩ <;> simp [runSelects_spec]

/-- C9: the accumulator is append-only: processing one more identifier
extends the table by exactly that identifier's rows, leaving every
previously appended row unchanged and in place, and any further extension
of the identifier sequence only appends to the old table. -/
theorem accumulator_append_only (lookup : String → List Binding)
    (ids rest : List String) (f : String) :
    importantPeopleLoop3 lookup (ids ++ [f]) =
        importantPeopleLoop3 lookup ids ++ rowsFor3 lookup f ∧
      ∃ t, importantPeopleLoop3 lookup (ids ++ rest) =
        importantPeopleLoop3 lookup ids ++ t := by
  constructor
  · rw [importantPeopleLoop3_eq, importantPeopleLoop3_eq, List.flatMap_append]
    simp
  · exact ⟨rest.flatMap (rowsFor3 lookup), by
      rw [importantPeopleLoop3_eq, importantPeopleLoop3_eq, List.flatMap_append]⟩

/-- C6: extraction fails with a `SchemaError` when the identifier column
is absent from the table, and the failure is fatal before any remote call:
the pipeline output is that error and is independent of the lookup
function; when the column exists, every cell is coerced to its string
representation, and extraction reads the table without modifying anything. -/
theorem extract_schema_error (t : Table) (col : String)
    (lk lk2 : String → List Binding) :
    (t.getColumn col = none →
      extract t col = .error (.missingColumn col) ∧
        filePipeline t col lk = .error (.missingColumn col) ∧
        filePipeline t col lk = filePipeline t col lk2) ∧
      ∀ cells, t.getColumn col = some cells →
        extract t col = .ok (cells.map Cell.astypeStr) := by
  constructor
  · intro h
    have he : extract t col = .error (.missingColumn col) := by
      simp only [extract, h]
    have hp : ∀ g : String → List Binding,
        filePipeline t col g = .error (.missingColumn col) := by
      intro g
      simp only [filePipeline, he]
    exact ⟨he, hp lk, by rw [hp lk, hp lk2]⟩
  · intro cells h
    simp only [extract, h]

/-- C6 witness: `sampleTable` has no column named `VIAF`, so extraction
and the whole pipeline fail with the schema error whatever the lookup
does; the column `VIAF_ID` exists and is extracted cell by cell. -/
theorem extract_schema_error_witness :
    (extract sampleTable "VIAF" = .error (.missingColumn "VIAF") ∧
        filePipeline sampleTable "VIAF" (fun _ => []) = .error (.missingColumn "VIAF") ∧
        filePipeline sampleTable "VIAF" (fun _ => []) =
          filePipeline sampleTable "VIAF"
            (fun _ => [{ person := some "u", personLabel := some "n",
                         wparticle := some "w" }])) ∧
      extract sampleTable "VIAF_ID" = .ok (sampleViafCells.map Cell.astypeStr) := by
  constructor
  · exact (extract_schema_error sampleTable "VIAF" (fun _ => [])
      (fun _ => [{ person := some "u", personLabel := some "n",
                   wparticle := some "w" }])).1 (by decide)
  · exact (extract_schema_error sampleTable "VIAF_ID" (fun _ => []) (fun _ => [])).2
      sampleViafCells (by decide)

/-- C10: every row of the file-driven output table originates from a
binding in which all three requested fields are bound — its three fields
are exactly those bound values, so no partial row ever appears — and a
binding missing any one of the three fields is discarded in its entirety
by the KeyError handler. -/
theorem output_rows_fully_bound :
    (∀ (lookup : String → List Binding) (ids : List String) (r : Row3),
        r ∈ importantPeopleLoop3 lookup ids →
          ∃ f b, f ∈ ids ∧ b ∈ lookup f ∧ b.person = some r.wikidataURI ∧
            b.personLabel = some r.name ∧ b.wparticle = some r.wikipediaURL) ∧
      ∀ (acc : List Row3) (b : Binding),
        b.person = none ∨ b.personLabel = none ∨ b.wparticle = none →
          tryAppendRow acc b = acc := by
  constructor
  · intro lookup ids r hr
    rw [importantPeopleLoop3_eq, List.mem_flatMap] at hr
    obtain ⟨f, hf, hr⟩ := hr
    rw [rowsFor3, processBindings_flatMap, List.mem_flatMap] at hr
    obtain ⟨b, hb, hr⟩ := hr
    refine ⟨f, b, hf, hb, ?_⟩
    rcases b with ⟨p, n, w⟩
    rcases p with _ | p <;> rcases n with _ | n <;> rcases w with _ | w <;>
      simp [tryAppendRow] at hr
    subst hr
    simp
  · exact tryAppendRow_of_none

/-- C10 witness: the fully-bound Herbert York binding yields a row the
theorem traces back to it, and a binding with no `person` field is
discarded by the handler. -/
theorem output_rows_fully_bound_witness :
    (∃ f b, f ∈ ["34562701"] ∧
        b ∈ [({ person := some "http://www.wikidata.org/entity/Q1609351",
                personLabel := some "Herbert York",
                wparticle := some "https://en.wikipedia.org/wiki/Herbert_York" } : Binding)] ∧
        b.person = some ({ wikidataURI := "http://www.wikidata.org/entity/Q1609351",
                           name := "Herbert York",
                           wikipediaURL := "https://en.wikipedia.org/wiki/Herbert_York" } : Row3).wikidataURI ∧
        b.personLabel = some ({ wikidataURI := "http://www.wikidata.org/entity/Q1609351",
                                name := "Herbert York",
                                wikipediaURL := "https://en.wikipedia.org/wiki/Herbert_York" } : Row3).name ∧
        b.wparticle = some ({ wikidataURI := "http://www.wikidata.org/entity/Q1609351",
                              name := "Herbert York",
                              wikipediaURL := "https://en.wikipedia.org/wiki/Herbert_York" } : Row3).wikipediaURL) ∧
      tryAppendRow []
          { person := none, personLabel := some "Herbert York",
            wparticle := some "https://en.wikipedia.org/wiki/Herbert_York" } = [] :=
  ⟨output_rows_fully_bound.1
      (fun _ => [{ person := some "http://www.wikidata.org/entity/Q1609351",
                   personLabel := some "Herbert York",
                   wparticle := some "https://en.wikipedia.org/wiki/Herbert_York" }])
      ["34562701"]
      { wikidataURI := "http://www.wikidata.org/entity/Q1609351",
        name := "Herbert York",
        wikipediaURL := "https://en.wikipedia.org/wiki/Herbert_York" }
      (by decide),
    output_rows_fully_bound.2 []
      { person := none, personLabel := some "Herbert York",
        wparticle := some "https://en.wikipedia.org/wiki/Herbert_York" }
      (Or.inl rfl)⟩

/-- C1 counterexample: the claim that the emitted identifier sequence
contains no missing-value sentinel is false on the code.  Extracting the
sample table's `VIAF_ID` column emits the literal string `"nan"` for every
`NaN` cell (the notebook's own printed `viaf_ids` shows them), and the
loop issues a lookup query whose embedded literal is `"nan"`. -/
theorem nan_sentinel_counterexample :
    extract sampleTable "VIAF_ID" = .ok sampleViafIds ∧
      "nan" ∈ sampleViafIds ∧
      queryString3 "nan" ∈ issuedQueryStrings sampleViafIds := by
  refine ⟨rfl, by simp [sampleViafIds], ?_⟩
  exact List.mem_map_of_mem queryString3 (by simp [sampleViafIds])

/-- C1 amended: a cell recognized as the missing-value sentinel is not
mapped to an explicit `Absent` value: `astype(str)` coerces it to the
literal string `"nan"`, that literal is included in the emitted identifier
sequence, and the loop issues a lookup query embedding the literal
`"nan"` for it. -/
theorem nan_sentinel_coerced_and_queried (t : Table) (col : String)
    (cells : List Cell) (hc : t.getColumn col = some cells)
    (hn : Cell.nan ∈ cells) :
    ∃ ids, extract t col = .ok ids ∧ "nan" ∈ ids ∧
      queryString3 "nan" ∈ issuedQueryStrings ids := by
  refine ⟨cells.map Cell.astypeStr, by simp only [extract, hc], ?_, ?_⟩
  · exact List.mem_map.mpr ⟨Cell.nan, hn, rfl⟩
  · exact List.mem_map_of_mem queryString3 (List.mem_map.mpr ⟨Cell.nan, hn, rfl⟩)

/-- C1 witness: the sample table's `VIAF_ID` column holds `NaN` cells, so
the amended statement applies to it. -/
theorem nan_sentinel_coerced_and_queried_witness :
    ∃ ids, extract sampleTable "VIAF_ID" = .ok ids ∧ "nan" ∈ ids ∧
      queryString3 "nan" ∈ issuedQueryStrings ids :=
  nan_sentinel_coerced_and_queried sampleTable "VIAF_ID" sampleViafCells
    (by decide) (by decide)

/-- C2 counterexample: the claim that a lookup failure never terminates
the pipeline is false on the code.  With a transport failure on the first
identifier, the run ends in that error instead of continuing with the next
identifier's rows; no side list of failed identifiers exists anywhere in
the output. -/
theorem lookup_error_terminates_counterexample :
    importantPeopleLoopE lookupWithOutage ["nan", "34562701"] =
        .error (.transport "nan") ∧
      importantPeopleLoopE lookupWithOutage ["nan", "34562701"] ≠
        .ok (importantPeopleLoop3 (fun f => evalSelect3 sampleStore f) ["34562701"]) := by
  refine ⟨rfl, ?_⟩
  intro h
  rw [show importantPeopleLoopE lookupWithOutage ["nan", "34562701"] =
      .error (.transport "nan") from rfl] at h
  exact Except.noConfusion h

/-- C2 amended: a per-identifier lookup failure is not caught: the first
`TransportError` or `ProtocolError` propagates out of the loop and
terminates the whole pipeline with that error, the identifiers after the
failing one are never processed, and no side list of failed identifiers is
produced (only a `KeyError` while building one row from one binding is
caught, and it is silently discarded). -/
theorem lookup_error_propagates (lookup : String → Except QueryError (List Binding))
    (pre post : List String) (f : String) (e : QueryError)
    (hpre : ∀ i ∈ pre, ∃ bs, lookup i = .ok bs) (hf : lookup f = .error e) :
    importantPeopleLoopE lookup (pre ++ f :: post) = .error e :=
  importantPeopleLoopEAux_error lookup post f e hf pre hpre []

/-- C2 witness: with an outage on `"nan"`, a batch that reaches it after
one successful identifier ends in the transport error, the identifier
after it notwithstanding. -/
theorem lookup_error_propagates_witness :
    importantPeopleLoopE lookupWithOutage (["34562701"] ++ "nan" :: ["76323201"]) =
      .error (.transport "nan") :=
  lookup_error_propagates lookupWithOutage ["34562701"] ["76323201"] "nan"
    (.transport "nan")
    (by
      intro i hi
      simp only [List.mem_singleton] at hi
      subst hi
      exact ⟨evalSelect3 sampleStore "34562701", rfl⟩)
    rfl

/-- C3 counterexample: the claim that a binding with an absent
secondary-link field yields a partial row is false on the code: a binding
carrying `person` and `personLabel` but no `wparticle` is discarded in its
entirety by the `except KeyError: pass` handler — the output table is
empty, with no partial row for Q76 in it. -/
theorem missing_wparticle_counterexample :
    importantPeopleLoop3
        (fun _ => [{ person := some "http://www.wikidata.org/entity/Q76",
                     personLabel := some "Barack Obama", wparticle := none }])
        ["52010985"] = [] := by
  rfl

/-- C3 amended: a binding whose secondary-link field is absent is
discarded in its entirety by the `KeyError` handler — no row, partial or
otherwise, is produced from it — while the rest of the batch is
unaffected: an identifier all of whose bindings lack the secondary link
contributes nothing, and the output equals that for the input without it. -/
theorem missing_wparticle_binding_discarded (lookup : String → List Binding)
    (pre post : List String) (f : String)
    (h : ∀ b ∈ lookup f, b.wparticle = none) :
    rowsFor3 lookup f = [] ∧
      importantPeopleLoop3 lookup (pre ++ f :: post) =
        importantPeopleLoop3 lookup (pre ++ post) := by
  have hrows := rowsFor3_eq_nil_of_none lookup f h
  refine ⟨hrows, ?_⟩
  rw [importantPeopleLoop3_eq, importantPeopleLoop3_eq, List.flatMap_append,
    List.flatMap_append, List.flatMap_cons, hrows]
  simp

/-- C3 witness: an identifier whose only binding lacks the secondary link
contributes no rows and leaves the rest of the batch unchanged. -/
theorem missing_wparticle_binding_discarded_witness :
    rowsFor3
        (fun _ => [{ person := some "http://www.wikidata.org/entity/Q76",
                     personLabel := some "Barack Obama", wparticle := none }])
        "52010985" = [] ∧
      importantPeopleLoop3
          (fun _ => [{ person := some "http://www.wikidata.org/entity/Q76",
                       personLabel := some "Barack Obama", wparticle := none }])
          (["a"] ++ "52010985" :: ["b"]) =
        importantPeopleLoop3
          (fun _ => [{ person := some "http://www.wikidata.org/entity/Q76",
                       personLabel := some "Barack Obama", wparticle := none }])
          (["a"] ++ ["b"]) :=
  missing_wparticle_binding_discarded
    (fun _ => [{ person := some "http://www.wikidata.org/entity/Q76",
                 personLabel := some "Barack Obama", wparticle := none }])
    ["a"] ["b"] "52010985" (by decide)
